import Mathlib

/-!
Shallow embedding of the ServerStriker monitoring agent (src/main.py).

External effects are made explicit:
* each fallible external call (psutil sampling, subprocess invocation, file
  access) appears as an `Except Err _` value supplied by a `CycleEnv`;
* file contents are `List Char` (agent log) or `List String` (line lists);
* the daemon's mutable state (`last_daily_check`, the persisted tail offset)
  is threaded as a `DaemonState` value;
* wall-clock readings are integers (seconds), one per `datetime.now()` call.

Python's `try/except` blocks become total functions consuming the `.error`
case; code with no handler propagates the error through `Except`.
-/

abbrev Err := String

deriving instance DecidableEq for Except

/-- Generic splitter over character lists: cuts at every character satisfying
`p`, always returning one (possibly empty) piece more than the number of cuts.
This matches Python `str.split(sep)` semantics (`"".split(",") = [""]`,
`"a,".split(",") = ["a", ""]`). -/
def splitCharsP (p : Char → Bool) : List Char → List (List Char)
  | [] => [[]]
  | c :: cs =>
    match splitCharsP p cs with
    | [] => [[]]
    | h :: t => if p c then [] :: h :: t else (c :: h) :: t

/-- Substring containment test (Python's `needle in hay`). -/
def containsSub (needle : List Char) : List Char → Bool
  | [] => needle.isEmpty
  | c :: cs => List.isPrefixOf needle (c :: cs) || containsSub needle cs

/-- Whitespace trimming on both ends (Python's `str.strip()`). -/
def trimChars (l : List Char) : List Char :=
  ((l.dropWhile Char.isWhitespace).reverse.dropWhile Char.isWhitespace).reverse

/-- Lowercasing (Python's `str.lower()`). -/
def lowerChars (l : List Char) : List Char := l.map Char.toLower

/-- Lines produced by iterating over a file in Python (`for line in f`),
with the trailing newline of each line already removed: splitting at every
newline, except that a trailing newline does not open a final empty line. -/
def fileLines (l : List Char) : List (List Char) :=
  let parts := splitCharsP (fun c => c == '\n') l
  if parts.getLast? = some [] then parts.dropLast else parts

/-- Configuration as stored in sst_config.json (fields read via
`config.get`; `services` is the raw comma-separated string). -/
structure Config where
  server_name : String
  webhook_url : String
  services : String
deriving DecidableEq

/-- Embeds `_split_services` (src/main.py lines 143-147): split the stored
string on commas, strip each entry, and drop entries that strip to empty. -/
def _split_services (services_str : String) : List String :=
  if services_str.data = [] then []
  else ((splitCharsP (fun c => c == ',') services_str.data).map
      (fun cs => String.mk (trimChars cs))).filter (fun s => s ≠ "")

/-- Message built by `check_cpu_usage`. -/
def cpuMsg (usage : Rat) : String := "🔥 High CPU Usage: " ++ toString usage ++ "%"

/-- Message built by `check_memory_usage`. -/
def memMsg (usage : Rat) : String := "🚨 High RAM Usage: " ++ toString usage ++ "%"

/-- Message built by `check_disk_usage`. -/
def diskMsg (usage : Rat) : String := "⚠️ Low Disk Space: " ++ toString usage ++ "% used"

/-- Embeds `check_cpu_usage` (lines 122-126): the psutil sample is an
external call with no surrounding handler, so a raised error propagates. -/
def check_cpu_usage (sample : Except Err Rat) (verbose : Bool) : Except Err (List String) :=
  sample.map fun usage => if usage > 80 ∨ verbose then [cpuMsg usage] else []

/-- Embeds `check_memory_usage` (lines 129-133); no handler, errors propagate. -/
def check_memory_usage (sample : Except Err Rat) (verbose : Bool) : Except Err (List String) :=
  sample.map fun usage => if usage > 80 ∨ verbose then [memMsg usage] else []

/-- Embeds `check_disk_usage` (lines 136-140); no handler, errors propagate. -/
def check_disk_usage (sample : Except Err Rat) (verbose : Bool) : Except Err (List String) :=
  sample.map fun usage => if usage > 80 ∨ verbose then [diskMsg usage] else []

/-- One iteration of the service loop in `check_running_services`
(lines 159-171): returns (findings, log lines).  The `systemctl is-active`
call is fallible; its error is caught per service and logged. -/
def serviceLine (status : Except Err String) (verbose : Bool) (service : String) :
    List String × List String :=
  match status with
  | .ok out =>
    if String.mk (trimChars out.data) ≠ "active" then (["❌ " ++ service ++ " is down!"], [])
    else if verbose then (["✔️ " ++ service ++ " is up!"], [])
    else ([], [])
  | .error e => ([], ["Error checking service " ++ service ++ ": " ++ e])

/-- Embeds `check_running_services` (lines 150-172): absent config yields no
findings; otherwise each configured service is probed in order and its
messages appended. -/
def check_running_services (config : Option Config) (status : String → Except Err String)
    (verbose : Bool) : List String × List String :=
  match config with
  | none => ([], [])
  | some cfg =>
    let services := _split_services cfg.services
    ((services.map fun s => (serviceLine (status s) verbose s).1).flatten,
     (services.map fun s => (serviceLine (status s) verbose s).2).flatten)

/-- Embeds `check_security_logs` (lines 175-185): count of auth-log lines
containing "Failed password" (the grep output); a failed call is caught,
logged, and counted as 0. -/
def check_security_logs (authGrep : Except Err (List String)) : Nat × List String :=
  match authGrep with
  | .ok lines => ((lines.filter fun l => containsSub "Failed password".data l.data).length, [])
  | .error e => (0, ["Error reading auth.log: " ++ e])

/-- Embeds the pure filtering step of `clear_ssh_attempts` (lines 188-198):
rewrite the auth log keeping only lines that do not contain "sshd". -/
def clear_ssh_attempts (lines : List String) : List String :=
  lines.filter fun line => !containsSub "sshd".data line.data

/-- Embeds the whole of `clear_ssh_attempts` including its handlers
(lines 188-205): a file-access failure becomes a logged warning, it never
propagates; on success the filtered content is written back and logged. -/
def clear_ssh_attempts_run (file : Except Err (List String)) :
    Option (List String) × List String :=
  match file with
  | .ok lines => (some (clear_ssh_attempts lines), ["SSH attempts cleared from /var/log/auth.log."])
  | .error e => (none, ["An error occurred clearing ssh attempts: " ++ e])

/-- Position the tailer actually reads from (lines 215-219): if the file
shrank below the stored offset the file was rotated and reading restarts
at 0. -/
def effective_pos (fileSize lastPos : Nat) : Nat :=
  if fileSize < lastPos then 0 else lastPos

/-- Is a log line interesting to `check_system_errors` (line 224-225)? -/
def interestingLine (l : List Char) : Bool :=
  let low := lowerChars l
  containsSub "error".data low || containsSub "critical".data low ||
    containsSub "failed".data low

/-- Message built for one interesting log line (line 226). -/
def sysErrMsg (l : List Char) : String := "🚨 System Error: " ++ String.mk (trimChars l)

/-- Embeds `check_system_errors` (lines 208-230): returns
(messages, new persisted offset, log lines).  A failure reading the agent log
is caught and logged, leaving the offset unchanged; otherwise the file is
read from the rotation-adjusted offset to the end, interesting lines are
mapped to messages, and the offset persists as the end-of-file position. -/
def check_system_errors (agentLog : Except Err (List Char)) (lastPos : Nat) :
    List String × Nat × List String :=
  match agentLog with
  | .error e => ([], lastPos, ["Error checking system logs: " ++ e])
  | .ok log =>
    let pos := effective_pos log.length lastPos
    let content := log.drop pos
    (((fileLines content).filter interestingLine).map sysErrMsg, log.length, [])

/-- Embeds `check_pending_updates` (lines 233-241): lines of
`apt list --upgradable` containing "/" are counted; a failed call is caught
and logged. -/
def check_pending_updates (aptOut : Except Err (List String)) : List String × List String :=
  match aptOut with
  | .error e => ([], ["Error checking updates: " ++ e])
  | .ok ls =>
    let updates := (ls.filter fun l => containsSub "/".data l.data).map
        (fun l => String.mk (splitCharsP (fun c => c == '/') l.data).headI)
    if updates ≠ [] then (["📦 " ++ toString updates.length ++ " packages can be upgraded."], [])
    else ([], [])

/-- Embeds `check_services_status` (lines 244-263): failed systemd units are
the first whitespace-delimited token of each listing line containing both
".service" and "failed"; a failed call is caught and logged. -/
def check_services_status (unitsOut : Except Err (List String)) : List String × List String :=
  match unitsOut with
  | .error e => ([], ["Error checking failed services: " ++ e])
  | .ok ls =>
    let failedUnits := (ls.filter fun l =>
        containsSub ".service".data l.data && containsSub "failed".data l.data).filterMap
        (fun l => ((splitCharsP Char.isWhitespace l.data).filter (· ≠ [])).head?.map String.mk)
    if failedUnits ≠ [] then
      (["🔴 Failed Services: " ++ String.intercalate ", " failedUnits], [])
    else ([], [])

/-- Outcome of one call to `send_webhook` (lines 87-116): dispatch can be
short-circuited by a missing config or a blank webhook URL; otherwise exactly
one POST is attempted whose failure (`transportOk = false`) is only logged. -/
inductive SendOutcome where
  | noConfig : SendOutcome
  | noWebhook : SendOutcome
  | posted : String → Bool → SendOutcome
deriving DecidableEq

/-- Number of transport (HTTP POST) invocations a `SendOutcome` stands for. -/
def SendOutcome.attempts : SendOutcome → Nat
  | .posted _ _ => 1
  | _ => 0

/-- Embeds `send_webhook` (lines 87-116): returns (outcome, log lines). -/
def send_webhook (config : Option Config) (transportOk : Bool) (message : String) :
    SendOutcome × List String :=
  match config with
  | none => (.noConfig, ["Config missing. Please run ServerStriker -init"])
  | some cfg =>
    if String.mk (trimChars cfg.webhook_url.data) = "" then
      (.noWebhook, ["Webhook URL not set. Run ServerStriker -setwebhook"])
    else
      (.posted message transportOk, if transportOk then [] else ["Webhook error: request failed"])

/-- Embeds the dispatch policy of the daemon loop (lines 302-303): send one
joined payload only when the merged message list is non-empty. -/
def dispatch (config : Option Config) (transportOk : Bool) (findings : List String) :
    Option SendOutcome × List String :=
  if findings ≠ [] then
    let r := send_webhook config transportOk (String.intercalate "\n" findings)
    (some r.1, r.2)
  else (none, [])

/-- The security-alert message of the daily block (line 293). -/
def security_alert_msg (n : Nat) : String :=
  "🚨 Security Alert: " ++ toString n ++ " failed SSH logins detected!"

/-- One day, the daily-check gate interval (`timedelta(days=1)`), in seconds;
wall-clock readings (`datetime.now()`) are integers in whole seconds. -/
def DAY : Int := 86400

/-- Inputs of one daemon-loop iteration: each external call the cycle can
make, plus the two wall-clock readings (`tCheck` at the daily gate,
`tEnd` at the marker update) and the transport result. -/
structure CycleEnv where
  config : Option Config
  cpu1 : Except Err Rat
  mem1 : Except Err Rat
  disk1 : Except Err Rat
  svc1 : String → Except Err String
  cpu2 : Except Err Rat
  mem2 : Except Err Rat
  disk2 : Except Err Rat
  svc2 : String → Except Err String
  authGrep : Except Err (List String)
  authFile : Except Err (List String)
  agentLog : Except Err (List Char)
  aptOut : Except Err (List String)
  unitsOut : Except Err (List String)
  tCheck : Int
  tEnd : Int
  transportOk : Bool

/-- Process state carried across loop iterations: `last_daily_check` and the
persisted tail offset of STATE_FILE. -/
structure DaemonState where
  lastDaily : Int
  tailPos : Nat
deriving DecidableEq

/-- State at daemon start (lines 270-273): `last_daily_check` is set one day
in the past so the daily block is due immediately; the tail offset is
whatever `read_last_position` recovers from STATE_FILE. -/
def init_state (t0 : Int) (pos0 : Nat) : DaemonState :=
  { lastDaily := t0 - DAY, tailPos := pos0 }

/-- Embeds the security section of the daily block (lines 291-294): returns
(messages, number of remediation invocations, log lines). -/
def security_block (env : CycleEnv) : List String × Nat × List String :=
  let sec := check_security_logs env.authGrep
  if sec.1 > 5 then
    let cl := clear_ssh_attempts_run env.authFile
    ([security_alert_msg sec.1], 1, sec.2 ++ cl.2)
  else ([], 0, sec.2)

/-- Result of the check-collection part of one loop iteration. -/
structure CoreOut where
  findings : List String
  remediations : Nat
  logs : List String
  extendedRan : Bool
  newState : DaemonState
deriving DecidableEq

/-- Embeds lines 276-300 of `run_daemon`: the frequent checks, the gated
daily block, and the state updates, but not yet the dispatch.  The resource
samplers have no handler, so their errors abort the iteration (and hence the
whole loop); every other probe degrades internally. -/
def cycle_core (env : CycleEnv) (st : DaemonState) : Except Err CoreOut := do
  let cpuF ← check_cpu_usage env.cpu1 false
  let memF ← check_memory_usage env.mem1 false
  let diskF ← check_disk_usage env.disk1 false
  let svcF := check_running_services env.config env.svc1 false
  let frequent := cpuF ++ memF ++ diskF ++ svcF.1
  if DAY ≤ env.tCheck - st.lastDaily then
    let cpuV ← check_cpu_usage env.cpu2 true
    let memV ← check_memory_usage env.mem2 true
    let diskV ← check_disk_usage env.disk2 true
    let svcV := check_running_services env.config env.svc2 true
    let sec := security_block env
    let sys := check_system_errors env.agentLog st.tailPos
    let upd := check_pending_updates env.aptOut
    let uni := check_services_status env.unitsOut
    pure { findings := frequent ++ cpuV ++ memV ++ diskV ++ svcV.1 ++ sec.1
             ++ sys.1 ++ upd.1 ++ uni.1,
           remediations := sec.2.1,
           logs := svcF.2 ++ svcV.2 ++ sec.2.2 ++ sys.2.2 ++ upd.2 ++ uni.2,
           extendedRan := true,
           newState := { lastDaily := env.tEnd, tailPos := sys.2.1 } }
  else
    pure { findings := frequent, remediations := 0, logs := svcF.2,
           extendedRan := false,
           newState := { lastDaily := st.lastDaily, tailPos := st.tailPos } }

/-- Observable result of one full loop iteration. -/
structure CycleOut where
  findings : List String
  logs : List String
  remediations : Nat
  send : Option SendOutcome
  extendedRan : Bool
deriving DecidableEq

/-- One full iteration of the daemon loop (lines 275-305): collect, then
dispatch when non-empty. -/
def run_cycle (env : CycleEnv) (st : DaemonState) : Except Err (CycleOut × DaemonState) :=
  (cycle_core env st).map fun co =>
    let d := dispatch env.config env.transportOk co.findings
    ({ findings := co.findings, logs := co.logs ++ d.2, remediations := co.remediations,
       send := d.1, extendedRan := co.extendedRan }, co.newState)

/-- The daemon loop run over a finite trace of per-iteration environments;
an uncaught error aborts the remaining iterations (the process crashes). -/
def run_trace (st : DaemonState) : List CycleEnv → Except Err (List CycleOut × DaemonState)
  | [] => .ok ([], st)
  | env :: envs =>
    match run_cycle env st with
    | .error e => .error e
    | .ok (out, st') =>
      match run_trace st' envs with
      | .error e => .error e
      | .ok (outs, stF) => .ok (out :: outs, stF)

/-- Content the tailer consumes in one call on a file with the given content
and stored offset. -/
def tailer_consumed (log : List Char) (pos : Nat) : List Char :=
  log.drop (effective_pos log.length pos)

/-- A sequence of appends to the agent log interleaved with tailer calls:
before call `i` the content `appends[i]` is appended, then
`check_system_errors` runs.  Each element pairs the returned messages with
the region of the file the call consumed. -/
def tailer_trace (log : List Char) (pos : Nat) :
    List (List Char) → List (List String × List Char)
  | [] => []
  | a :: as =>
    let log' := log ++ a
    let r := check_system_errors (.ok log') pos
    (r.1, tailer_consumed log' pos) :: tailer_trace log' r.2.1 as

/-- Lexicographic code-point comparison of character lists (the order Python
`sorted` uses on strings). -/
def charsLe : List Char → List Char → Bool
  | [], _ => true
  | _ :: _, [] => false
  | c :: cs, d :: ds => if c = d then charsLe cs ds else decide (c < d)

/-- Embeds the service-set computation of `add_service` (lines 335-346):
current entries are deduplicated into a set, the (already stripped) new name
is added when non-empty, and the result is stored sorted. -/
def add_service_services (current newService : String) : List String :=
  let services := (_split_services current).dedup
  let services2 := if newService ≠ "" then services.insert newService else services
  List.insertionSort (fun a b : String => charsLe a.data b.data = true) services2

/-- The quiet-mode resource findings of one frequent phase. -/
def quietRes (u m d : Rat) : List String :=
  (if u > 80 then [cpuMsg u] else []) ++ (if m > 80 then [memMsg m] else [])
    ++ (if d > 80 then [diskMsg d] else [])

/-- Explicit form of a frequent-only iteration of `cycle_core`. -/
def coreFreq (env : CycleEnv) (st : DaemonState) (u1 m1 d1 : Rat) : CoreOut :=
  { findings := quietRes u1 m1 d1 ++ (check_running_services env.config env.svc1 false).1,
    remediations := 0,
    logs := (check_running_services env.config env.svc1 false).2,
    extendedRan := false,
    newState := { lastDaily := st.lastDaily, tailPos := st.tailPos } }

/-- Explicit form of an extended iteration of `cycle_core`. -/
def coreExt (env : CycleEnv) (st : DaemonState) (u1 m1 d1 u2 m2 d2 : Rat) : CoreOut :=
  { findings := quietRes u1 m1 d1 ++ (check_running_services env.config env.svc1 false).1
      ++ [cpuMsg u2] ++ [memMsg m2] ++ [diskMsg d2]
      ++ (check_running_services env.config env.svc2 true).1
      ++ (security_block env).1 ++ (check_system_errors env.agentLog st.tailPos).1
      ++ (check_pending_updates env.aptOut).1 ++ (check_services_status env.unitsOut).1,
    remediations := (security_block env).2.1,
    logs := (check_running_services env.config env.svc1 false).2
      ++ (check_running_services env.config env.svc2 true).2
      ++ (security_block env).2.2 ++ (check_system_errors env.agentLog st.tailPos).2.2
      ++ (check_pending_updates env.aptOut).2 ++ (check_services_status env.unitsOut).2,
    extendedRan := true,
    newState := { lastDaily := env.tEnd,
                  tailPos := (check_system_errors env.agentLog st.tailPos).2.1 } }

/-- A daemon state with both persisted scalars at zero. -/
def stZero : DaemonState := { lastDaily := 0, tailPos := 0 }

/-- A benign iteration environment: no configuration, all samples at 10%,
all external calls succeed with empty or quiet results, clocks at 0. -/
def baseEnv : CycleEnv :=
  { config := none, cpu1 := .ok 10, mem1 := .ok 10, disk1 := .ok 10,
    svc1 := fun _ => .ok "active", cpu2 := .ok 10, mem2 := .ok 10, disk2 := .ok 10,
    svc2 := fun _ => .ok "active", authGrep := .ok [], authFile := .ok [],
    agentLog := .ok [], aptOut := .ok [], unitsOut := .ok [],
    tCheck := 0, tEnd := 0, transportOk := true }

/-- Environment in which the CPU sampler raises while the disk probe would
have produced a finding. -/
def envC1 : CycleEnv := { baseEnv with cpu1 := .error "boom", disk1 := .ok 95 }

/-- A configuration with a non-blank webhook URL and no services. -/
def cfgFull : Config :=
  { server_name := "srv", webhook_url := "http://example/hook", services := "" }

/-- A configuration monitoring one service, with no webhook URL. -/
def cfgNginx : Config := { server_name := "srv", webhook_url := "", services := "nginx" }

/-- Environment in which every guarded probe raises (service status, auth
grep, auth file, agent log, apt, systemd units) while the resource samplers
succeed, and the daily gate is due. -/
def envW1 : CycleEnv :=
  { baseEnv with
    config := some cfgNginx
    svc1 := fun _ => .error "svc boom"
    svc2 := fun _ => .error "svc boom"
    authGrep := .error "grep boom"
    authFile := .error "open boom"
    agentLog := .error "log boom"
    aptOut := .error "apt boom"
    unitsOut := .error "unit boom"
    tCheck := 172800
    tEnd := 172900 }

/-- An auth-log line matching the counted pattern but not "sshd". -/
def authLine1 : String := "Failed password for root from 10.0.0.1"

/-- An auth-log line containing "sshd" but not the counted pattern. -/
def authLine2 : String := "sshd[999]: Connection closed"

/-- Result of a fully quiet frequent-only iteration. -/
def outBase : CycleOut :=
  { findings := [], logs := [], remediations := 0, send := none, extendedRan := false }

/-- Benign environment observed at `tCheck = 1000`, marker update at 1500. -/
def envC4 : CycleEnv := { baseEnv with tCheck := 1000, tEnd := 1500 }

/-- Result of the first iteration of a daemon started at time 1000 in the
benign environment: the extended phase runs and the three verbose resource
findings are produced. -/
def outC4 : CycleOut :=
  { findings := ["🔥 High CPU Usage: 10%", "🚨 High RAM Usage: 10%",
                 "⚠️ Low Disk Space: 10% used"],
    logs := ["Config missing. Please run ServerStriker -init"],
    remediations := 0, send := some .noConfig, extendedRan := true }

/-- State after that first iteration: marker at 1500. -/
def stC4 : DaemonState := { lastDaily := 1500, tailPos := 0 }

/-- An auth log with six "Failed password" lines and two others. -/
def authC6 : List String :=
  [authLine1, authLine1, authLine1, authLine1, authLine1, authLine1, "ok line", "quiet line"]

/-- Benign environment except for the auth log above, daily gate due. -/
def envC6 : CycleEnv :=
  { baseEnv with authGrep := .ok authC6, authFile := .ok authC6, tCheck := 172800 }

/-- Result of one extended iteration in `envC6`. -/
def outC6 : CycleOut :=
  { findings := ["🔥 High CPU Usage: 10%", "🚨 High RAM Usage: 10%",
                 "⚠️ Low Disk Space: 10% used",
                 "🚨 Security Alert: 6 failed SSH logins detected!"],
    logs := ["SSH attempts cleared from /var/log/auth.log.",
             "Config missing. Please run ServerStriker -init"],
    remediations := 1, send := some .noConfig, extendedRan := true }

/-- Environment with high CPU and no configuration at all. -/
def envC7 : CycleEnv := { baseEnv with cpu1 := .ok 90 }

/-- Result of one iteration in `envC7`: non-empty findings, yet the webhook
transport is never reached because the config is missing. -/
def outC7 : CycleOut :=
  { findings := ["🔥 High CPU Usage: 90%"],
    logs := ["Config missing. Please run ServerStriker -init"],
    remediations := 0, send := some .noConfig, extendedRan := false }

/-- Environment with high CPU, a configured webhook, and a failing transport. -/
def envW7 : CycleEnv :=
  { baseEnv with config := some cfgFull, cpu1 := .ok 90, transportOk := false }

/-- Result of one iteration in `envW7`: one POST attempted and failed. -/
def outW7 : CycleOut :=
  { findings := ["🔥 High CPU Usage: 90%"],
    logs := ["Webhook error: request failed"],
    remediations := 0, send := some (.posted "🔥 High CPU Usage: 90%" false),
    extendedRan := false }

/-- Environment for a sustained alert: CPU above 80% in both samples, the
monitored service inactive in both rounds, daily gate due. -/
def envW10 : CycleEnv :=
  { baseEnv with
    config := some cfgNginx
    cpu1 := .ok 85
    cpu2 := .ok 95
    svc1 := fun _ => .ok "inactive"
    svc2 := fun _ => .ok "inactive"
    tCheck := 172800 }


theorem ss_ok_bind {α β : Type} (a : α) (f : α → Except Err β) :
    ((Except.ok a : Except Err α) >>= f) = f a := rfl

theorem ss_error_bind {α β : Type} (e : Err) (f : α → Except Err β) :
    ((Except.error e : Except Err α) >>= f) = .error e := rfl

theorem ss_map_ok {α β : Type} (f : α → β) (a : α) :
    (Except.ok a : Except Err α).map f = .ok (f a) := rfl

theorem ss_map_error {α β : Type} (f : α → β) (e : Err) :
    (Except.error e : Except Err α).map f = .error e := rfl

theorem cycle_core_ext_eq (env : CycleEnv) (st : DaemonState) (u1 m1 d1 u2 m2 d2 : Rat)
    (hc1 : env.cpu1 = .ok u1) (hm1 : env.mem1 = .ok m1) (hd1 : env.disk1 = .ok d1)
    (hc2 : env.cpu2 = .ok u2) (hm2 : env.mem2 = .ok m2) (hd2 : env.disk2 = .ok d2)
    (hgate : DAY ≤ env.tCheck - st.lastDaily) :
    cycle_core env st = .ok (coreExt env st u1 m1 d1 u2 m2 d2) := by
  simp [cycle_core, check_cpu_usage, check_memory_usage, check_disk_usage,
    hc1, hm1, hd1, hc2, hm2, hd2, hgate, coreExt, quietRes,
    ss_ok_bind, ss_map_ok]

theorem cycle_core_freq_eq (env : CycleEnv) (st : DaemonState) (u1 m1 d1 : Rat)
    (hc1 : env.cpu1 = .ok u1) (hm1 : env.mem1 = .ok m1) (hd1 : env.disk1 = .ok d1)
    (hgate : ¬ DAY ≤ env.tCheck - st.lastDaily) :
    cycle_core env st = .ok (coreFreq env st u1 m1 d1) := by
  simp [cycle_core, check_cpu_usage, check_memory_usage, check_disk_usage,
    hc1, hm1, hd1, hgate, coreFreq, quietRes, ss_ok_bind, ss_map_ok]

theorem run_cycle_eq_ok {env : CycleEnv} {st : DaemonState} {out : CycleOut}
    {st' : DaemonState} :
    run_cycle env st = .ok (out, st') ↔
    ∃ co : CoreOut, cycle_core env st = .ok co ∧ st' = co.newState ∧
      out = { findings := co.findings,
              logs := co.logs ++ (dispatch env.config env.transportOk co.findings).2,
              remediations := co.remediations,
              send := (dispatch env.config env.transportOk co.findings).1,
              extendedRan := co.extendedRan } := by
  cases hcc : cycle_core env st with
  | error e => simp [run_cycle, hcc, ss_map_error]
  | ok co =>
    simp only [run_cycle, hcc, ss_map_ok, Except.ok.injEq, Prod.mk.injEq]
    constructor
    · rintro ⟨h1, h2⟩
      exact ⟨co, rfl, h2.symm, h1.symm⟩
    · rintro ⟨co2, hco2, h2, h1⟩
      cases hco2
      exact ⟨h1.symm, h2.symm⟩

theorem cycle_core_inv {env : CycleEnv} {st : DaemonState} {co : CoreOut}
    (h : cycle_core env st = .ok co) :
    ∃ u1 m1 d1 : Rat, env.cpu1 = .ok u1 ∧ env.mem1 = .ok m1 ∧ env.disk1 = .ok d1 ∧
    ((DAY ≤ env.tCheck - st.lastDaily ∧
        ∃ u2 m2 d2 : Rat, env.cpu2 = .ok u2 ∧ env.mem2 = .ok m2 ∧ env.disk2 = .ok d2 ∧
          co = coreExt env st u1 m1 d1 u2 m2 d2) ∨
      (¬ DAY ≤ env.tCheck - st.lastDaily ∧ co = coreFreq env st u1 m1 d1)) := by
  cases hc1 : env.cpu1 with
  | error e => simp [cycle_core, hc1, check_cpu_usage, ss_map_error, ss_error_bind] at h
  | ok u1 =>
  cases hm1 : env.mem1 with
  | error e => simp [cycle_core, hc1, hm1, check_cpu_usage, check_memory_usage,
      ss_map_error, ss_map_ok, ss_error_bind, ss_ok_bind] at h
  | ok m1 =>
  cases hd1 : env.disk1 with
  | error e => simp [cycle_core, hc1, hm1, hd1, check_cpu_usage, check_memory_usage,
      check_disk_usage, ss_map_error, ss_map_ok, ss_error_bind, ss_ok_bind] at h
  | ok d1 =>
  refine ⟨u1, m1, d1, rfl, rfl, rfl, ?_⟩
  by_cases hgate : DAY ≤ env.tCheck - st.lastDaily
  · left
    refine ⟨hgate, ?_⟩
    cases hc2 : env.cpu2 with
    | error e => simp [cycle_core, hc1, hm1, hd1, hc2, hgate, check_cpu_usage,
        check_memory_usage, check_disk_usage, ss_map_error, ss_map_ok,
        ss_error_bind, ss_ok_bind] at h
    | ok u2 =>
    cases hm2 : env.mem2 with
    | error e => simp [cycle_core, hc1, hm1, hd1, hc2, hm2, hgate, check_cpu_usage,
        check_memory_usage, check_disk_usage, ss_map_error, ss_map_ok,
        ss_error_bind, ss_ok_bind] at h
    | ok m2 =>
    cases hd2 : env.disk2 with
    | error e => simp [cycle_core, hc1, hm1, hd1, hc2, hm2, hd2, hgate, check_cpu_usage,
        check_memory_usage, check_disk_usage, ss_map_error, ss_map_ok,
        ss_error_bind, ss_ok_bind] at h
    | ok d2 =>
    refine ⟨u2, m2, d2, rfl, rfl, rfl, ?_⟩
    have := cycle_core_ext_eq env st u1 m1 d1 u2 m2 d2 hc1 hm1 hd1 hc2 hm2 hd2 hgate
    rw [this] at h
    exact (Except.ok.inj h).symm
  · right
    refine ⟨hgate, ?_⟩
    have := cycle_core_freq_eq env st u1 m1 d1 hc1 hm1 hd1 hgate
    rw [this] at h
    exact (Except.ok.inj h).symm

theorem cycle_core_transport (env : CycleEnv) (st : DaemonState) (b : Bool) :
    cycle_core { env with transportOk := b } st = cycle_core env st := by
  cases env
  rfl

theorem coreExt_seg (env : CycleEnv) (st : DaemonState) (u1 m1 d1 u2 m2 d2 : Rat) :
    (∃ s t, s ++ (check_running_services env.config env.svc1 false).1 ++ t
        = (coreExt env st u1 m1 d1 u2 m2 d2).findings) ∧
    (∃ s t, s ++ (check_running_services env.config env.svc2 true).1 ++ t
        = (coreExt env st u1 m1 d1 u2 m2 d2).findings) ∧
    (∃ s t, s ++ (security_block env).1 ++ t
        = (coreExt env st u1 m1 d1 u2 m2 d2).findings) ∧
    (∃ s t, s ++ (check_system_errors env.agentLog st.tailPos).1 ++ t
        = (coreExt env st u1 m1 d1 u2 m2 d2).findings) ∧
    (∃ s t, s ++ (check_pending_updates env.aptOut).1 ++ t
        = (coreExt env st u1 m1 d1 u2 m2 d2).findings) ∧
    (∃ s t, s ++ (check_services_status env.unitsOut).1 ++ t
        = (coreExt env st u1 m1 d1 u2 m2 d2).findings) := by
  refine ⟨⟨quietRes u1 m1 d1,
      [cpuMsg u2] ++ [memMsg m2] ++ [diskMsg d2]
        ++ (check_running_services env.config env.svc2 true).1 ++ (security_block env).1
        ++ (check_system_errors env.agentLog st.tailPos).1
        ++ (check_pending_updates env.aptOut).1 ++ (check_services_status env.unitsOut).1,
      ?_⟩,
    ⟨quietRes u1 m1 d1 ++ (check_running_services env.config env.svc1 false).1
        ++ [cpuMsg u2] ++ [memMsg m2] ++ [diskMsg d2],
      (security_block env).1 ++ (check_system_errors env.agentLog st.tailPos).1
        ++ (check_pending_updates env.aptOut).1 ++ (check_services_status env.unitsOut).1,
      ?_⟩,
    ⟨quietRes u1 m1 d1 ++ (check_running_services env.config env.svc1 false).1
        ++ [cpuMsg u2] ++ [memMsg m2] ++ [diskMsg d2]
        ++ (check_running_services env.config env.svc2 true).1,
      (check_system_errors env.agentLog st.tailPos).1
        ++ (check_pending_updates env.aptOut).1 ++ (check_services_status env.unitsOut).1,
      ?_⟩,
    ⟨quietRes u1 m1 d1 ++ (check_running_services env.config env.svc1 false).1
        ++ [cpuMsg u2] ++ [memMsg m2] ++ [diskMsg d2]
        ++ (check_running_services env.config env.svc2 true).1 ++ (security_block env).1,
      (check_pending_updates env.aptOut).1 ++ (check_services_status env.unitsOut).1,
      ?_⟩,
    ⟨quietRes u1 m1 d1 ++ (check_running_services env.config env.svc1 false).1
        ++ [cpuMsg u2] ++ [memMsg m2] ++ [diskMsg d2]
        ++ (check_running_services env.config env.svc2 true).1 ++ (security_block env).1
        ++ (check_system_errors env.agentLog st.tailPos).1,
      (check_services_status env.unitsOut).1,
      ?_⟩,
    ⟨quietRes u1 m1 d1 ++ (check_running_services env.config env.svc1 false).1
        ++ [cpuMsg u2] ++ [memMsg m2] ++ [diskMsg d2]
        ++ (check_running_services env.config env.svc2 true).1 ++ (security_block env).1
        ++ (check_system_errors env.agentLog st.tailPos).1
        ++ (check_pending_updates env.aptOut).1,
      [],
      ?_⟩⟩ <;>
  simp [coreExt, List.append_assoc]

/-- C5: for every sampled value, each of the CPU, memory, and disk checks in
quiet mode returns a Finding if and only if the sampled usage is strictly
greater than 80, and in verbose mode returns exactly one Finding regardless
of the sampled value. -/
theorem C5_threshold : ∀ u : Rat,
    (check_cpu_usage (.ok u) false = .ok [cpuMsg u] ↔ u > 80) ∧
    (check_cpu_usage (.ok u) false = .ok [] ↔ u ≤ 80) ∧
    check_cpu_usage (.ok u) true = .ok [cpuMsg u] ∧
    (check_memory_usage (.ok u) false = .ok [memMsg u] ↔ u > 80) ∧
    (check_memory_usage (.ok u) false = .ok [] ↔ u ≤ 80) ∧
    check_memory_usage (.ok u) true = .ok [memMsg u] ∧
    (check_disk_usage (.ok u) false = .ok [diskMsg u] ↔ u > 80) ∧
    (check_disk_usage (.ok u) false = .ok [] ↔ u ≤ 80) ∧
    check_disk_usage (.ok u) true = .ok [diskMsg u] := by
  intro u
  by_cases h : u > 80
  · have h' : ¬ u ≤ 80 := not_le.mpr h
    simp [check_cpu_usage, check_memory_usage, check_disk_usage, ss_map_ok, h, h']
  · have h' : u ≤ 80 := not_lt.mp h
    simp [check_cpu_usage, check_memory_usage, check_disk_usage, ss_map_ok, h, h']

/-- C8: whenever the log file size has become smaller than the stored offset,
the next read starts from offset 0 (the whole file is read), and the
position the tailer reads from never exceeds the file size, so it never
seeks past end-of-file. -/
theorem C8_rotation_reset (log : List Char) (pos : Nat) :
    (log.length < pos →
      check_system_errors (.ok log) pos
        = (((fileLines log).filter interestingLine).map sysErrMsg, log.length, [])) ∧
    effective_pos log.length pos ≤ log.length ∧
    check_system_errors (.ok log) pos
      = (((fileLines (log.drop (effective_pos log.length pos))).filter interestingLine).map
          sysErrMsg, log.length, []) := by
  refine ⟨?_, ?_, rfl⟩
  · intro h
    simp [check_system_errors, effective_pos, h]
  · unfold effective_pos
    split
    · exact Nat.zero_le _
    · omega

/-- Witness for C8 at a concrete rotated file: size 11, stored offset 99. -/
theorem C8_witness :
    check_system_errors (.ok "some error\n".data) 99
      = (((fileLines "some error\n".data).filter interestingLine).map sysErrMsg,
         "some error\n".data.length, []) ∧
    effective_pos "some error\n".data.length 99 ≤ "some error\n".data.length :=
  ⟨(C8_rotation_reset "some error\n".data 99).1 (by decide),
   (C8_rotation_reset "some error\n".data 99).2.1⟩

theorem tailer_trace_spec : ∀ (as : List (List Char)) (log : List Char) (pos : Nat),
    pos = log.length →
    (tailer_trace log pos as).map Prod.snd = as ∧
    (tailer_trace log pos as).map Prod.fst
      = as.map (fun a => ((fileLines a).filter interestingLine).map sysErrMsg) := by
  intro as
  induction as with
  | nil => intro log pos h; simp [tailer_trace]
  | cons a as ih =>
    intro log pos h
    subst h
    have hnlt : ¬ (log ++ a).length < log.length := by
      rw [List.length_append]; omega
    have hdrop : (log ++ a).drop log.length = a := List.drop_left log a
    have hcse : check_system_errors (.ok (log ++ a)) log.length
        = (((fileLines a).filter interestingLine).map sysErrMsg, (log ++ a).length, []) := by
      simp [check_system_errors, effective_pos, hnlt, hdrop]
    have hcons : tailer_consumed (log ++ a) log.length = a := by
      simp [tailer_consumed, effective_pos, hnlt, hdrop]
    have hrest := ih (log ++ a) (log ++ a).length rfl
    simp only [tailer_trace, hcse, hcons, List.map_cons]
    exact ⟨by rw [hrest.1], by rw [hrest.2]⟩

/-- C2 counterexample: a line appended to the agent log that matches no
keyword is returned by no tailer call at all, and the returned sequences do
not reproduce the file content — the tailer itself filters and rewrites. -/
theorem C2_counterexample :
    check_system_errors (.ok "hello\n".data) 0 = ([], 6, []) ∧
    (fileLines "hello\n".data).map String.mk = ["hello"] := by
  decide

/-- C2 (amended): across any sequence of appends interleaved with tailer
calls and no rotation, each appended region is consumed by exactly one call
(the consumed regions are exactly the appends, in order, so their
concatenation reproduces the appended file content), and each call returns
one rewritten message per new line matching the keyword filter — the
filtering and rewriting happen inside the tailer, not in a separate caller. -/
theorem C2_tailer_exactly_once (log0 : List Char) (pos0 : Nat) (appends : List (List Char))
    (h0 : pos0 = log0.length) :
    (tailer_trace log0 pos0 appends).map Prod.snd = appends ∧
    ((tailer_trace log0 pos0 appends).map Prod.snd).flatten = appends.flatten ∧
    (tailer_trace log0 pos0 appends).map Prod.fst
      = appends.map (fun a => ((fileLines a).filter interestingLine).map sysErrMsg) := by
  have h := tailer_trace_spec appends log0 pos0 h0
  exact ⟨h.1, by rw [h.1], h.2⟩

/-- Witness for C2: one append of a line containing "error" to a fully
tailed two-byte log. -/
theorem C2_witness :
    (tailer_trace "a\n".data 2 ["boot error\n".data]).map Prod.snd
      = ["boot error\n".data] ∧
    ((tailer_trace "a\n".data 2 ["boot error\n".data]).map Prod.snd).flatten
      = (["boot error\n".data] : List (List Char)).flatten ∧
    (tailer_trace "a\n".data 2 ["boot error\n".data]).map Prod.fst
      = (["boot error\n".data] : List (List Char)).map
          (fun a => ((fileLines a).filter interestingLine).map sysErrMsg) :=
  C2_tailer_exactly_once "a\n".data 2 ["boot error\n".data] (by decide)

/-- C3 counterexample: the remediation removes lines containing "sshd", not
lines matching the counted pattern "Failed password" — a counted line
without "sshd" is kept and an "sshd" line without the pattern is removed. -/
theorem C3_counterexample :
    clear_ssh_attempts [authLine1, authLine2] = [authLine1] ∧
    containsSub "Failed password".data authLine1.data = true ∧
    containsSub "sshd".data authLine1.data = false ∧
    containsSub "Failed password".data authLine2.data = false ∧
    containsSub "sshd".data authLine2.data = true := by
  decide

/-- C3 (amended): the remediation removes from the authentication log exactly
the lines containing "sshd" (not the counted pattern), keeps every other
line in order, runs at most once per cycle, and a file-access failure
degrades to a logged warning rather than a crash. -/
theorem C3_remediation :
    (∀ lines : List String, List.Sublist (clear_ssh_attempts lines) lines) ∧
    (∀ lines : List String, ∀ l ∈ lines,
        (l ∈ clear_ssh_attempts lines ↔ containsSub "sshd".data l.data = false)) ∧
    (∀ e : Err, clear_ssh_attempts_run (.error e)
        = (none, ["An error occurred clearing ssh attempts: " ++ e])) ∧
    (∀ env st out st', run_cycle env st = .ok (out, st') → out.remediations ≤ 1) := by
  refine ⟨fun lines => List.filter_sublist lines, ?_, fun e => rfl, ?_⟩
  · intro lines l hl
    simp [clear_ssh_attempts, List.mem_filter, hl]
  · intro env st out st' h
    rcases run_cycle_eq_ok.mp h with ⟨co, hcc, -, hout⟩
    rcases cycle_core_inv hcc with ⟨u1, m1, d1, -, -, -, hbr⟩
    rcases hbr with ⟨-, u2, m2, d2, -, -, -, hco⟩ | ⟨-, hco⟩
    · subst hco hout
      simp only [coreExt, security_block]
      split <;> simp
    · subst hco hout
      simp [coreFreq]

/-- Witness for C3: membership criterion on a concrete log, and the
at-most-once bound on a concrete successful cycle. -/
theorem C3_witness :
    (authLine1 ∈ clear_ssh_attempts [authLine1, authLine2] ↔
      containsSub "sshd".data authLine1.data = false) ∧
    outBase.remediations ≤ 1 :=
  ⟨C3_remediation.2.1 [authLine1, authLine2] authLine1 (by decide),
   C3_remediation.2.2.2 baseEnv stZero outBase stZero (by decide)⟩

/-- C9 counterexample: a stored configuration can repeat a service name, and
`_split_services` does not deduplicate, so the list used by a cycle can
contain duplicates. -/
theorem C9_counterexample :
    _split_services "nginx,nginx" = ["nginx", "nginx"] ∧
    ¬ (_split_services "nginx,nginx").Nodup := by
  constructor
  · decide
  · decide

/-- C9 (amended): the monitored-services list used by a cycle never contains
empty entries, but it deduplicates nothing, so duplicates in the stored
string survive; the service list computed (and stored) by `add_service` is
duplicate-free. -/
theorem C9_services_invariant :
    (∀ s : String, "" ∉ _split_services s) ∧
    (∀ cur newName : String, (add_service_services cur newName).Nodup) := by
  constructor
  · intro s hmem
    unfold _split_services at hmem
    split at hmem
    · exact absurd hmem (List.not_mem_nil "")
    · have := (List.mem_filter.mp hmem).2
      simp at this
  · intro cur newName
    unfold add_service_services
    have hbase : ((_split_services cur).dedup).Nodup := List.nodup_dedup _
    have h2 : (if newName ≠ "" then ((_split_services cur).dedup).insert newName
        else (_split_services cur).dedup).Nodup := by
      split
      · exact hbase.insert
      · exact hbase
    exact ((List.perm_insertionSort _ _).nodup_iff).mpr h2

/-- Witness for C9 at concrete configurations. -/
theorem C9_witness :
    "" ∉ _split_services "nginx,,mysql" ∧
    (add_service_services "nginx,nginx" "mysql").Nodup :=
  ⟨C9_services_invariant.1 "nginx,,mysql", C9_services_invariant.2 "nginx,nginx" "mysql"⟩

theorem run_cycle_gate {env : CycleEnv} {st : DaemonState} {out : CycleOut}
    {st' : DaemonState} (h : run_cycle env st = .ok (out, st')) :
    (out.extendedRan = true ↔ DAY ≤ env.tCheck - st.lastDaily) ∧
    (out.extendedRan = true → st'.lastDaily = env.tEnd) ∧
    (out.extendedRan = false → st' = st) := by
  rcases run_cycle_eq_ok.mp h with ⟨co, hcc, hst, hout⟩
  rcases cycle_core_inv hcc with ⟨u1, m1, d1, -, -, -, hbr⟩
  rcases hbr with ⟨hgate, u2, m2, d2, -, -, -, hco⟩ | ⟨hgate, hco⟩
  · subst hco hout hst
    refine ⟨by simpa [coreExt] using hgate, fun _ => rfl, fun hfalse => ?_⟩
    simp [coreExt] at hfalse
  · subst hco hout hst
    refine ⟨by simpa [coreFreq] using hgate, fun htrue => ?_, fun _ => ?_⟩
    · simp [coreFreq] at htrue
    · cases st
      rfl

/-- C4: the extended (daily) phase runs on the first iteration after process
start; after an extended run whose marker was set to the run's end time, it
does not run again while less than 24 hours have elapsed since that time;
and the marker is updated exactly by extended runs (left unchanged, together
with the whole state, by frequent-only iterations). -/
theorem C4_extended_schedule :
    (∀ (t0 : Int) (p0 : Nat) (env : CycleEnv) (out : CycleOut) (st' : DaemonState),
        t0 ≤ env.tCheck → run_cycle env (init_state t0 p0) = .ok (out, st') →
        out.extendedRan = true) ∧
    (∀ env st out st', run_cycle env st = .ok (out, st') →
        (out.extendedRan = true ↔ DAY ≤ env.tCheck - st.lastDaily) ∧
        (out.extendedRan = true → st'.lastDaily = env.tEnd) ∧
        (out.extendedRan = false → st' = st)) ∧
    (∀ env1 env2 st out1 st1 out2 st2,
        run_cycle env1 st = .ok (out1, st1) → out1.extendedRan = true →
        run_cycle env2 st1 = .ok (out2, st2) → env2.tCheck - env1.tEnd < DAY →
        out2.extendedRan = false) := by
  refine ⟨?_, fun env st out st' h => run_cycle_gate h, ?_⟩
  · intro t0 p0 env out st' ht h
    have hg := (run_cycle_gate h).1
    apply hg.mpr
    have hld : (init_state t0 p0).lastDaily = t0 - 86400 := rfl
    have hday : DAY = 86400 := rfl
    rw [hld, hday]
    omega
  · intro env1 env2 st out1 st1 out2 st2 h1 hext h2 hlt
    have hmarker : st1.lastDaily = env1.tEnd := (run_cycle_gate h1).2.1 hext
    have hg2 := (run_cycle_gate h2).1
    rcases hout2 : out2.extendedRan with _ | _
    · rfl
    · exfalso
      have hge := hg2.mp hout2
      rw [hmarker] at hge
      have hday : DAY = 86400 := rfl
      rw [hday] at hge hlt
      omega

/-- Witness for C4: a daemon started at time 1000 runs the extended phase on
its first iteration. -/
theorem C4_witness : outC4.extendedRan = true :=
  C4_extended_schedule.1 1000 0 envC4 outC4 stC4 (by decide) (by decide)

/-- C1 counterexample: an exception raised by the CPU sampler is not caught
inside the probe; it propagates out of the cycle and aborts the scheduler
loop, although the disk probe alone would have produced a finding. -/
theorem C1_counterexample :
    run_cycle envC1 stZero = .error "boom" ∧
    run_trace stZero [envC1] = .error "boom" ∧
    check_disk_usage envC1.disk1 false = .ok ["⚠️ Low Disk Space: 95% used"] := by
  decide

/-- C1 (amended): provided the CPU, memory and disk samplers succeed, an
exception raised by any other probe (service status, security-log grep,
auth-log access, agent-log tailing, pending updates, failed units) is caught
and logged inside that probe, the cycle completes, its Finding list still
contains every other probe's findings as a contiguous segment, and dispatch
is reached whenever the merged list is non-empty; an exception from a
resource sampler, however, propagates into the scheduler loop. -/
theorem C1_probe_isolation (env : CycleEnv) (st : DaemonState) (u1 m1 d1 u2 m2 d2 : Rat)
    (hc1 : env.cpu1 = .ok u1) (hm1 : env.mem1 = .ok m1) (hd1 : env.disk1 = .ok d1)
    (hc2 : env.cpu2 = .ok u2) (hm2 : env.mem2 = .ok m2) (hd2 : env.disk2 = .ok d2) :
    ∃ out st', run_cycle env st = .ok (out, st') ∧
      (∃ s t, s ++ (check_running_services env.config env.svc1 false).1 ++ t = out.findings) ∧
      (∃ s t, s ++ (check_running_services env.config env.svc1 false).2 ++ t = out.logs) ∧
      (out.extendedRan = true →
        (∃ s t, s ++ (check_running_services env.config env.svc2 true).1 ++ t = out.findings) ∧
        (∃ s t, s ++ (security_block env).1 ++ t = out.findings) ∧
        (∃ s t, s ++ (check_system_errors env.agentLog st.tailPos).1 ++ t = out.findings) ∧
        (∃ s t, s ++ (check_pending_updates env.aptOut).1 ++ t = out.findings) ∧
        (∃ s t, s ++ (check_services_status env.unitsOut).1 ++ t = out.findings)) ∧
      (out.findings ≠ [] → out.send ≠ none) := by
  by_cases hgate : DAY ≤ env.tCheck - st.lastDaily
  · have hcc := cycle_core_ext_eq env st u1 m1 d1 u2 m2 d2 hc1 hm1 hd1 hc2 hm2 hd2 hgate
    have hrun := run_cycle_eq_ok.mpr ⟨coreExt env st u1 m1 d1 u2 m2 d2, hcc, rfl, rfl⟩
    refine ⟨_, _, hrun, ?_, ?_, fun _ => ?_, ?_⟩
    · exact (coreExt_seg env st u1 m1 d1 u2 m2 d2).1
    · refine ⟨[], (check_running_services env.config env.svc2 true).2
          ++ (security_block env).2.2 ++ (check_system_errors env.agentLog st.tailPos).2.2
          ++ (check_pending_updates env.aptOut).2 ++ (check_services_status env.unitsOut).2
          ++ (dispatch env.config env.transportOk (coreExt env st u1 m1 d1 u2 m2 d2).findings).2,
        ?_⟩
      simp [coreExt, List.append_assoc]
    · exact ⟨(coreExt_seg env st u1 m1 d1 u2 m2 d2).2.1,
        (coreExt_seg env st u1 m1 d1 u2 m2 d2).2.2.1,
        (coreExt_seg env st u1 m1 d1 u2 m2 d2).2.2.2.1,
        (coreExt_seg env st u1 m1 d1 u2 m2 d2).2.2.2.2.1,
        (coreExt_seg env st u1 m1 d1 u2 m2 d2).2.2.2.2.2⟩
    · intro hne
      simp only [dispatch, if_pos hne]
      exact Option.some_ne_none _
  · have hcc := cycle_core_freq_eq env st u1 m1 d1 hc1 hm1 hd1 hgate
    have hrun := run_cycle_eq_ok.mpr ⟨coreFreq env st u1 m1 d1, hcc, rfl, rfl⟩
    refine ⟨_, _, hrun, ?_, ?_, fun hext => ?_, ?_⟩
    · refine ⟨quietRes u1 m1 d1, [], ?_⟩
      simp [coreFreq]
    · refine ⟨[], (dispatch env.config env.transportOk (coreFreq env st u1 m1 d1).findings).2, ?_⟩
      simp [coreFreq]
    · simp [coreFreq] at hext
    · intro hne
      simp only [dispatch, if_pos hne]
      exact Option.some_ne_none _

/-- Witness for C1: with successful resource samples and every guarded probe
raising, the cycle still completes and reaches dispatch. -/
theorem C1_witness :
    ∃ out st', run_cycle envW1 stZero = .ok (out, st') ∧
      (∃ s t, s ++ (check_running_services envW1.config envW1.svc1 false).1 ++ t
        = out.findings) ∧
      (∃ s t, s ++ (check_running_services envW1.config envW1.svc1 false).2 ++ t
        = out.logs) ∧
      (out.extendedRan = true →
        (∃ s t, s ++ (check_running_services envW1.config envW1.svc2 true).1 ++ t
          = out.findings) ∧
        (∃ s t, s ++ (security_block envW1).1 ++ t = out.findings) ∧
        (∃ s t, s ++ (check_system_errors envW1.agentLog stZero.tailPos).1 ++ t
          = out.findings) ∧
        (∃ s t, s ++ (check_pending_updates envW1.aptOut).1 ++ t = out.findings) ∧
        (∃ s t, s ++ (check_services_status envW1.unitsOut).1 ++ t = out.findings)) ∧
      (out.findings ≠ [] → out.send ≠ none) :=
  C1_probe_isolation envW1 stZero 10 10 10 10 10 10
    (by decide) (by decide) (by decide) (by decide) (by decide) (by decide)

/-- C6: in an extended cycle, `check_security_logs` returns exactly the
number of auth-log lines containing "Failed password"; if that count exceeds
5 the cycle emits exactly one aggregate security Finding (contained in the
merged list) and invokes remediation exactly once, and otherwise emits no
security Finding and never invokes remediation. -/
theorem C6_security_check (lines : List String) (env : CycleEnv) (st : DaemonState)
    (out : CycleOut) (st' : DaemonState)
    (hauth : env.authGrep = .ok lines)
    (h : run_cycle env st = .ok (out, st')) (hext : out.extendedRan = true) :
    (check_security_logs env.authGrep).1
        = (lines.filter fun l => containsSub "Failed password".data l.data).length ∧
    out.remediations
        = (if 5 < (lines.filter fun l => containsSub "Failed password".data l.data).length
           then 1 else 0) ∧
    (security_block env).1
        = (if 5 < (lines.filter fun l => containsSub "Failed password".data l.data).length
           then [security_alert_msg
                  ((lines.filter fun l => containsSub "Failed password".data l.data).length)]
           else []) ∧
    (∃ s t, s ++ (security_block env).1 ++ t = out.findings) := by
  rcases run_cycle_eq_ok.mp h with ⟨co, hcc, hst, hout⟩
  rcases cycle_core_inv hcc with ⟨u1, m1, d1, -, -, -, hbr⟩
  rcases hbr with ⟨hgate, u2, m2, d2, -, -, -, hco⟩ | ⟨hgate, hco⟩
  · subst hco hout hst
    refine ⟨by rw [hauth]; rfl, ?_, ?_, ?_⟩
    · show (coreExt env st u1 m1 d1 u2 m2 d2).remediations = _
      simp only [coreExt, security_block, check_security_logs, hauth]
      split <;> simp_all
    · simp only [security_block, check_security_logs, hauth]
      split <;> simp_all
    · exact (coreExt_seg env st u1 m1 d1 u2 m2 d2).2.2.1
  · exfalso
    subst hco hout
    simp [coreFreq] at hext

/-- Witness for C6 at an auth log with six matching lines and two others:
the count is 6, one security Finding is emitted, remediation runs once. -/
theorem C6_witness :
    (check_security_logs envC6.authGrep).1
        = (authC6.filter fun l => containsSub "Failed password".data l.data).length ∧
    outC6.remediations
        = (if 5 < (authC6.filter fun l => containsSub "Failed password".data l.data).length
           then 1 else 0) ∧
    (security_block envC6).1
        = (if 5 < (authC6.filter fun l => containsSub "Failed password".data l.data).length
           then [security_alert_msg
                  ((authC6.filter fun l => containsSub "Failed password".data l.data).length)]
           else []) ∧
    (∃ s t, s ++ (security_block envC6).1 ++ t = outC6.findings) :=
  C6_security_check authC6 envC6 stZero outC6 stZero (by decide) (by decide) (by decide)

/-- C7 counterexample: a cycle with a non-empty merged Finding list invokes
the transport zero times, not exactly once, when no config is present. -/
theorem C7_counterexample :
    run_cycle envC7 stZero
      = .ok ({ findings := ["🔥 High CPU Usage: 90%"],
               logs := ["Config missing. Please run ServerStriker -init"],
               remediations := 0, send := some .noConfig, extendedRan := false }, stZero) ∧
    SendOutcome.attempts .noConfig = 0 ∧
    (["🔥 High CPU Usage: 90%"] : List String) ≠ [] := by
  decide

/-- C7 (amended): per iteration, dispatch is skipped exactly when the merged
list is empty; when it is non-empty and a config with a non-blank webhook URL
is present, the transport is invoked exactly once with the newline-joined
payload; with no config the transport is never invoked even for non-empty
findings; and the transport outcome feeds back into nothing — the next state
and all non-dispatch outputs are the same whether delivery succeeded or
failed, so a failed delivery's findings are dropped, never re-sent. -/
theorem C7_dispatch (env : CycleEnv) (st : DaemonState) (out : CycleOut)
    (st' : DaemonState) (h : run_cycle env st = .ok (out, st')) :
    (out.findings = [] → out.send = none) ∧
    (out.findings ≠ [] → out.send
        = some (send_webhook env.config env.transportOk
            (String.intercalate "\n" out.findings)).1) ∧
    (∀ cfg, env.config = some cfg → String.mk (trimChars cfg.webhook_url.data) ≠ "" →
        out.findings ≠ [] →
        out.send = some (.posted (String.intercalate "\n" out.findings) env.transportOk) ∧
        (SendOutcome.posted (String.intercalate "\n" out.findings) env.transportOk).attempts
          = 1) ∧
    (env.config = none → ∀ s, out.send = some s → s.attempts = 0) ∧
    (∀ b : Bool, ∃ out2, run_cycle { env with transportOk := b } st = .ok (out2, st') ∧
        out2.findings = out.findings ∧ out2.remediations = out.remediations ∧
        out2.extendedRan = out.extendedRan) := by
  rcases run_cycle_eq_ok.mp h with ⟨co, hcc, hst, hout⟩
  subst hout hst
  refine ⟨?_, ?_, ?_, ?_, ?_⟩
  · intro hnil
    show (dispatch env.config env.transportOk co.findings).1 = none
    rw [show co.findings = [] from hnil]
    simp [dispatch]
  · intro hne
    show (dispatch env.config env.transportOk co.findings).1 = _
    simp [dispatch, if_pos hne]
  · intro cfg hcfg hurl hne
    constructor
    · show (dispatch env.config env.transportOk co.findings).1 = _
      simp [dispatch, if_pos hne, send_webhook, hcfg, hurl]
    · rfl
  · intro hnone s hsend
    by_cases hne : co.findings = []
    · rw [show co.findings = [] from hne] at hsend
      simp [dispatch] at hsend
    · simp only [dispatch, if_pos hne, send_webhook, hnone] at hsend
      cases hsend
      rfl
  · intro b
    have hcc' : cycle_core { env with transportOk := b } st = .ok co := by
      rw [cycle_core_transport]; exact hcc
    exact ⟨_, run_cycle_eq_ok.mpr ⟨co, hcc', rfl, rfl⟩, rfl, rfl, rfl⟩

/-- Witness for C7 at a configured webhook with failing transport: exactly
one POST is attempted, and flipping the transport outcome changes nothing
but the dispatch record. -/
theorem C7_witness :
    (outW7.findings = [] → outW7.send = none) ∧
    (outW7.findings ≠ [] → outW7.send
        = some (send_webhook envW7.config envW7.transportOk
            (String.intercalate "\n" outW7.findings)).1) ∧
    (∀ cfg, envW7.config = some cfg →
        String.mk (trimChars cfg.webhook_url.data) ≠ "" → outW7.findings ≠ [] →
        outW7.send = some (.posted (String.intercalate "\n" outW7.findings)
            envW7.transportOk) ∧
        (SendOutcome.posted (String.intercalate "\n" outW7.findings)
            envW7.transportOk).attempts = 1) ∧
    (envW7.config = none → ∀ s, outW7.send = some s → s.attempts = 0) ∧
    (∀ b : Bool, ∃ out2, run_cycle { envW7 with transportOk := b } stZero
        = .ok (out2, stZero) ∧
        out2.findings = outW7.findings ∧ out2.remediations = outW7.remediations ∧
        out2.extendedRan = outW7.extendedRan) :=
  C7_dispatch envW7 stZero outW7 stZero (by decide)

theorem countP_down_ge_one (cfg : Config) (status : String → Except Err String)
    (v : Bool) (name stat : String) (hmem : name ∈ _split_services cfg.services)
    (hst : status name = .ok stat) (hdown : String.mk (trimChars stat.data) ≠ "active") :
    1 ≤ List.countP (fun m => m == "❌ " ++ name ++ " is down!")
        (check_running_services (some cfg) status v).1 := by
  have hseg : (serviceLine (status name) v name).1 = ["❌ " ++ name ++ " is down!"] := by
    simp [serviceLine, hst, hdown]
  have hmem2 : (serviceLine (status name) v name).1
      ∈ (_split_services cfg.services).map (fun s => (serviceLine (status s) v s).1) :=
    List.mem_map_of_mem _ hmem
  have hsub := List.sublist_flatten_of_mem hmem2
  have hle := hsub.countP_le (fun m => m == "❌ " ++ name ++ " is down!")
  have hone : List.countP (fun m => m == "❌ " ++ name ++ " is down!")
      (serviceLine (status name) v name).1 = 1 := by
    rw [hseg]
    simp [List.countP_cons]
  show 1 ≤ List.countP _ ((_split_services cfg.services).map
      (fun s => (serviceLine (status s) v s).1)).flatten
  omega

/-- C10: in an extended iteration each resource and service probe runs twice
(quiet then verbose); a CPU alert condition holding in both samples yields
two CPU findings in the one merged list, and a monitored service observed
down in both rounds yields two down findings for it. -/
theorem C10_double_findings (env : CycleEnv) (st : DaemonState)
    (u1 m1 d1 u2 m2 d2 : Rat) (cfg : Config) (name st1 st2 : String)
    (hc1 : env.cpu1 = .ok u1) (hm1 : env.mem1 = .ok m1) (hd1 : env.disk1 = .ok d1)
    (hc2 : env.cpu2 = .ok u2) (hm2 : env.mem2 = .ok m2) (hd2 : env.disk2 = .ok d2)
    (hgate : DAY ≤ env.tCheck - st.lastDaily)
    (h80a : u1 > 80) (h80b : u2 > 80)
    (hconf : env.config = some cfg) (hmem : name ∈ _split_services cfg.services)
    (hsvc1 : env.svc1 name = .ok st1) (hsvc2 : env.svc2 name = .ok st2)
    (hdown1 : String.mk (trimChars st1.data) ≠ "active")
    (hdown2 : String.mk (trimChars st2.data) ≠ "active") :
    ∃ out st', run_cycle env st = .ok (out, st') ∧ out.extendedRan = true ∧
      2 ≤ List.countP (fun m => m == cpuMsg u1 || m == cpuMsg u2) out.findings ∧
      2 ≤ List.countP (fun m => m == "❌ " ++ name ++ " is down!") out.findings := by
  have hcc := cycle_core_ext_eq env st u1 m1 d1 u2 m2 d2 hc1 hm1 hd1 hc2 hm2 hd2 hgate
  have hrun := run_cycle_eq_ok.mpr ⟨coreExt env st u1 m1 d1 u2 m2 d2, hcc, rfl, rfl⟩
  refine ⟨_, _, hrun, rfl, ?_, ?_⟩
  · show 2 ≤ List.countP _ (coreExt env st u1 m1 d1 u2 m2 d2).findings
    simp only [coreExt, quietRes, List.countP_append, if_pos h80a]
    simp only [List.countP_cons, List.countP_nil, beq_self_eq_true, Bool.true_or,
      Bool.or_true, if_pos rfl]
    simp
    omega
  · show 2 ≤ List.countP _ (coreExt env st u1 m1 d1 u2 m2 d2).findings
    have k1 := countP_down_ge_one cfg env.svc1 false name st1 hmem hsvc1 hdown1
    have k2 := countP_down_ge_one cfg env.svc2 true name st2 hmem hsvc2 hdown2
    simp only [coreExt, hconf, List.countP_append]
    omega

/-- Witness for C10: CPU at 85% then 95%, one monitored service inactive in
both rounds, during an extended iteration. -/
theorem C10_witness :
    ∃ out st', run_cycle envW10 stZero = .ok (out, st') ∧ out.extendedRan = true ∧
      2 ≤ List.countP (fun m => m == cpuMsg 85 || m == cpuMsg 95) out.findings ∧
      2 ≤ List.countP (fun m => m == "❌ " ++ "nginx" ++ " is down!") out.findings :=
  C10_double_findings envW10 stZero 85 10 10 95 10 10 cfgNginx "nginx" "inactive" "inactive"
    (by decide) (by decide) (by decide) (by decide) (by decide) (by decide) (by decide)
    (by decide) (by decide) (by decide) (by decide) (by decide) (by decide)
    (by decide) (by decide)
